import Mathlib

/-!
Verification of the WordPress post-migration engine (services/wordpressService.ts
and pages/MigrationPage.tsx) against its natural-language specification.

The remote calls of the source are asynchronous JavaScript `fetch`es.  The
embedding makes each remote interaction explicit: an environment value records
what each request would return (a network-level rejection, or an HTTP response
with status / headers / parsed JSON body), and each source function becomes a
pure Lean function of that environment returning `Except String` — `.error msg`
models a rejected promise carrying `new Error(msg)`.  JavaScript is
single-threaded; `Promise.all` resolves to the array of results in argument
order (independent of completion order) and rejects as soon as any input
rejects, which is modelled by `List.mapM` over `Except`.
-/

/-- Truthiness fallback `s || fallback` of JavaScript for strings: the empty
string is the only falsy string. -/
def jsOr (s fallback : String) : String :=
  if s = "" then fallback else s

/-- Whether a character list starts with the given pattern. -/
def leadsWith : List Char → List Char → Bool
  | _, [] => true
  | [], _ :: _ => false
  | a :: as, b :: bs => (a == b) && leadsWith as bs

/-- Whether the pattern occurs somewhere inside the list. -/
def occursIn (pattern : List Char) : List Char → Bool
  | [] => pattern.isEmpty
  | c :: rest => leadsWith (c :: rest) pattern || occursIn pattern rest

/-- JavaScript `s.includes(sub)`: substring containment. -/
def jsIncludes (s sub : String) : Bool :=
  occursIn sub.toList s.toList

/-- JavaScript `parseInt(s, 10)`: skip leading whitespace, read an optional
sign and then leading decimal digits; `none` models `NaN` (no digit found). -/
def jsParseInt (s : String) : Option Int :=
  let cs := s.toList.dropWhile (fun c => c == ' ' || c == '\t' || c == '\n' || c == '\r')
  let signAndRest : Int × List Char :=
    match cs with
    | '-' :: r => (-1, r)
    | '+' :: r => (1, r)
    | r => (1, r)
  let ds := signAndRest.2.takeWhile Char.isDigit
  if ds.isEmpty then none
  else some (signAndRest.1 * (ds.foldl (fun acc c => acc * 10 + (c.toNat - '0'.toNat)) 0 : Nat))

/-- Parsed JSON error body of a non-2xx response: `parseError` models
`response.json()` rejecting (the `.catch` path), `parsed m` a JSON object
whose `message` field is `m` (`none` when the field is absent). -/
inductive JsonBody where
  | parseError : JsonBody
  | parsed : Option String → JsonBody
deriving DecidableEq

/-- Error message computed by the repeated pattern
`errorData.message || fallback` where `errorData` is the parsed JSON body and
`{ message: catchMsg }` replaces it when parsing fails. -/
def jsErrorMessage (catchMsg fallback : String) (body : JsonBody) : String :=
  match body with
  | .parseError => jsOr catchMsg fallback
  | .parsed none => fallback
  | .parsed (some m) => jsOr m fallback

/-- An HTTP response as `apiFetch` sees it: `ok` is `response.ok`, `status`
the HTTP status, `errorBody` the JSON body read on the error path, `value`
the JSON body read on the success path. -/
structure RawResponse (α : Type) where
  ok : Bool
  status : Nat
  errorBody : JsonBody
  value : α

/-- Transport helper `apiFetch` of wordpressService: the argument is the
outcome of `fetch` (network-level rejection or a response).  On a non-2xx
response it throws `errorData.message || "HTTP error! status: <code>"` where
`errorData` falls back to `{ message: 'Unknown error' }` when the body fails
to parse as JSON. -/
def apiFetch {α : Type} (fetchResult : Except String (RawResponse α)) : Except String α := do
  let response ← fetchResult
  if response.ok = false then
    throw (jsErrorMessage "Unknown error" ("HTTP error! status: " ++ toString response.status) response.errorBody)
  else
    pure response.value

/-- Connection data used by the engine: `url` is the site base URL,
`proxyUrl` the optional CORS proxy base (`none` models an absent/falsy
`proxyUrl`). -/
structure SiteConfigM where
  url : String
  proxyUrl : Option String
deriving DecidableEq

/-- Helper `getFinalUrl`: prefix the proxy base with trailing slashes
trimmed, else use the raw URL unmodified. -/
def getFinalUrl (rawUrl : String) (proxyUrl : Option String) : String :=
  match proxyUrl with
  | some p => p.dropRightWhile (fun c => c == '/') ++ "/" ++ rawUrl
  | none => rawUrl

/-- Content types the engine migrates. -/
inductive ContentType where
  | posts : ContentType
  | pages : ContentType
deriving DecidableEq

/-- The REST collection name of a content type (the TypeScript string value). -/
def contentTypeName : ContentType → String
  | .posts => "posts"
  | .pages => "pages"

/-- JavaScript `contentType.slice(0, -1)`: the singular used in the creation
error prefix. -/
def contentTypeSingular : ContentType → String
  | .posts => "post"
  | .pages => "page"

/-- First-page response of `getContent`: `ok`/`status`/`errorBody` as in
`RawResponse`; `totalPagesHeader` and `totalHeader` are the raw
`X-WP-TotalPages` / `X-WP-Total` header values (`none` when absent, as
`headers.get` returns `null`); `items` the parsed page of content items. -/
structure FirstPageResponse (α : Type) where
  ok : Bool
  status : Nat
  errorBody : JsonBody
  totalPagesHeader : Option String
  totalHeader : Option String
  items : List α

/-- Environment of one `getContent` run: the outcome of the first-page
`fetch`, and for every page number the outcome of the `fetch` inside
`apiFetch` for that page. -/
structure FetchEnv (α : Type) where
  firstPage : Except String (FirstPageResponse α)
  page : Nat → Except String (RawResponse (List α))

/-- Total page count as `getContent` computes it:
`parseInt(headers.get('X-WP-TotalPages') || '1', 10)`; `none` models `NaN`. -/
def totalPagesOf {α : Type} (resp : FirstPageResponse α) : Option Int :=
  jsParseInt (resp.totalPagesHeader.getD "1")

/-- Total item count as `getContent` computes it:
`parseInt(headers.get('X-WP-Total') || '0', 10)`; `none` models `NaN`. -/
def totalItemsOf {α : Type} (resp : FirstPageResponse α) : Option Int :=
  jsParseInt (resp.totalHeader.getD "0")

/-- JavaScript comparison `totalPages <= 1`: false when `totalPages` is `NaN`
(every comparison against `NaN` is false). -/
def atMostOnePage (totalPages : Option Int) : Bool :=
  match totalPages with
  | some t => decide (t ≤ 1)
  | none => false

/-- Page numbers requested by the fan-out loop `for (page = 2; page <= totalPages; page++)`.
A `NaN` bound (`none`) yields no iterations, as does `totalPages <= 1`. -/
def pageNums (totalPages : Option Int) : List Nat :=
  match totalPages with
  | none => []
  | some t => if t ≤ 1 then [] else (List.range (t - 1).toNat).map (fun i => i + 2)

/-- JavaScript `Promise.all` over already-started promises whose outcomes
are given in array order: resolves to the list of values in that order
(whatever the completion order) and rejects whenever any input rejects. -/
def promiseAll {β : Type} : List (Except String β) → Except String (List β)
  | [] => .ok []
  | r :: rest =>
    match r with
    | .error e => .error e
    | .ok v =>
      match promiseAll rest with
      | .error e => .error e
      | .ok vs => .ok (v :: vs)

/-- Content fetcher `getContent`: request page 1; on a non-2xx first response
throw `message || "HTTP error! status: <code>"` (catch default
`Unknown error getting <type>`); otherwise read the pagination headers,
return the first page alone when `totalPages <= 1`, and otherwise fan out
pages `2..totalPages` through `apiFetch` via `Promise.all` and append all
remaining pages to the first, in page order.  The progress callback does not affect the returned value and
is omitted. -/
def getContent {α : Type} (env : FetchEnv α) (contentType : ContentType) : Except String (List α) := do
  let resp ← env.firstPage
  if resp.ok = false then
    throw (jsErrorMessage ("Unknown error getting " ++ contentTypeName contentType)
      ("HTTP error! status: " ++ toString resp.status) resp.errorBody)
  else
    let totalPages := totalPagesOf resp
    let allItems := resp.items
    if atMostOnePage totalPages then
      pure allItems
    else do
      let remainingPagesResults ← promiseAll ((pageNums totalPages).map (fun p => apiFetch (env.page p)))
      pure (allItems ++ remainingPagesResults.flatten)

/-- Root-endpoint response seen by `validateConnection` (only `ok` and
`status` are consulted). -/
structure RootResponse where
  ok : Bool
  status : Nat
deriving DecidableEq

/-- Authenticated users-me response seen by `validateConnection`. -/
structure AuthResponse where
  ok : Bool
  status : Nat
  body : JsonBody
deriving DecidableEq

/-- Environment of one `validateConnection` run: the outcome of the
unauthenticated REST-root `fetch` and of the authenticated users-me `fetch`. -/
structure ValidateEnv where
  root : Except String RootResponse
  auth : Except String AuthResponse

/-- Message thrown when the REST root responds non-2xx. -/
def rootUnreachableMessage (status : Nat) : String :=
  "Cannot reach the WordPress REST API endpoint. Please check the URL. (Status: " ++ toString status ++ ")"

/-- Message thrown on a 401/403 from the authenticated check. -/
def authSpecificMessage : String :=
  "Authentication failed. Please check your username and Application Password."

/-- Fallback message for a non-2xx, non-401/403 authenticated check. -/
def authCheckFallback (status : Nat) : String :=
  "Authentication check failed with status: " ++ toString status

/-- The detailed CORS/network remediation message substituted by
`validateConnection`'s catch block. -/
def networkErrorMessage : String :=
  "Network error: Could not connect to the URL. This is often due to one of the following:\n\n1. **CORS Policy:** The WordPress site is not configured to allow requests from this application. A security plugin or server setting might be blocking it.\n\n2. **Invalid URL:** The URL is incorrect, or the site is offline.\n\n3. **Mixed Content:** Trying to connect to an 'http' site from this secure 'https' application, which is blocked by browsers.\n\n**To fix CORS issues**, you may need to install a CORS plugin on your WordPress site or use the \"CORS Proxy URL\" field below."

/-- Body of `validateConnection`'s try block: check the REST root, then the
authenticated users-me endpoint; 401/403 gets the authentication-specific
message, any other non-2xx gets `message || "Authentication check failed with
status: <code>"` (catch default `Unknown authentication error`). -/
def validateConnectionTry (env : ValidateEnv) : Except String Unit := do
  let rootResponse ← env.root
  if rootResponse.ok = false then
    throw (rootUnreachableMessage rootResponse.status)
  else do
    let response ← env.auth
    if response.ok = false then
      if response.status = 401 ∨ response.status = 403 then
        throw authSpecificMessage
      else
        throw (jsErrorMessage "Unknown authentication error" (authCheckFallback response.status) response.body)
    else
      pure ()

/-- Connection validator `validateConnection`: the try body wrapped by the
catch that replaces any error whose message contains `'Failed to fetch'`
with the detailed network/CORS message and rethrows every other error
unchanged. -/
def validateConnection (env : ValidateEnv) : Except String Unit :=
  match validateConnectionTry env with
  | .ok _ => .ok ()
  | .error msg =>
    if jsIncludes msg "Failed to fetch" then .error networkErrorMessage
    else .error msg

/-- Abstract WHATWG URL module backing `new URL(...)`: `isAbsoluteUrl s`
is whether the one-argument constructor `new URL(s)` succeeds, and
`resolveRelative path base` is `new URL(path, base).href` (`none` when that
constructor throws). -/
structure UrlModel where
  isAbsoluteUrl : String → Bool
  resolveRelative : String → String → Option String

/-- The terminal error thrown when neither `new URL(imageUrl)` nor
`new URL(imageUrl, sourceConfig.url)` succeeds. -/
def resolveFailureMessage (baseUrl imageUrl : String) : String :=
  "Could not resolve the image URL. The source site URL ('" ++ baseUrl ++ "') or the image path ('" ++ imageUrl ++ "') may be invalid."

/-- URL-resolution prelude of `uploadMedia`: an already-absolute URL is used
as-is, otherwise it is resolved against the source site's base URL, and a
double failure is a terminal error naming both. -/
def resolveImageUrl (u : UrlModel) (imageUrl baseUrl : String) : Except String String :=
  if u.isAbsoluteUrl imageUrl then .ok imageUrl
  else
    match u.resolveRelative imageUrl baseUrl with
    | some href => .ok href
    | none => .error (resolveFailureMessage baseUrl imageUrl)

/-- Image-download response seen by `uploadMedia`. -/
structure DownloadResponse where
  ok : Bool
  status : Nat
  statusText : String
deriving DecidableEq

/-- Media-upload response seen by `uploadMedia`: `mediaId` is the `id` field
of the JSON returned on success. -/
structure UploadResponse where
  ok : Bool
  statusText : String
  body : JsonBody
  mediaId : Nat
deriving DecidableEq

/-- Environment of one `uploadMedia` run: the outcome of the image-download
`fetch`, keyed by the final (possibly proxied) URL requested, and the outcome
of the multipart upload `fetch`, keyed by the final URL requested. -/
structure MediaEnv where
  download : String → Except String DownloadResponse
  upload : String → Except String UploadResponse

/-- Remote calls `uploadMedia` issues, in order. -/
inductive MediaEvent where
  | downloadCall : String → MediaEvent
  | uploadCall : MediaEvent
deriving DecidableEq

/-- Remediation message for a network-level download failure when a source
proxy is configured. -/
def downloadNetworkProxyMessage (proxyUrl : String) : String :=
  "Image download failed using the proxy. The 'Failed to fetch' error can happen for several reasons:\n\n1.  **Proxy Error:** The Proxy URL ('" ++ proxyUrl ++ "') is incorrect, has a typo, or the proxy service is down.\n2.  **Original Image URL Error:** The image URL from the source site might be invalid or unreachable by the proxy.\n3.  **Network Issue:** Your own network connection might be unstable.\n\n**Action:** Please double-check your Proxy URL. If it's correct, the proxy service itself may be the issue. Try a different one."

/-- Remediation message for a network-level download failure when no source
proxy is configured. -/
def downloadNetworkDirectMessage : String :=
  "Image download failed. This is typically a CORS security error from the source server.\n\n**Primary Solution:** Use the \"CORS Proxy URL\" field for the **Source Site**. This is the most common fix for 'Failed to fetch' errors when downloading media.\n\n**Other Possibilities:**\n1.  **Mixed Content:** The image is on 'http://' while this app is on 'https://'. Browsers block this.\n2.  **Invalid Image URL:** The URL for the image itself may be wrong or the image is not publicly accessible.\n3.  **Network Issue:** A firewall or unstable connection could be blocking the download."

/-- Message for a non-2xx download response. -/
def downloadHttpFailureMessage (status : Nat) (statusText : String) : String :=
  "Failed to download image from source. The server responded with status " ++ toString status ++ " (" ++ statusText ++ "). This could be a permissions issue on the source file or an invalid image URL."

/-- Wrapper added by the upload try/catch (it also wraps the non-2xx branch
thrown inside the same try block). -/
def uploadWrapMessage (details : String) : String :=
  "Could not upload image to destination site. This is often a CORS policy problem, a permissions issue, or a network error. Details: " ++ details

/-- Download-and-upload body of `uploadMedia`, entered with the already
resolved absolute URL: download through the source proxy, then upload the
blob to the destination media endpoint. -/
def uploadMediaFromUrl (env : MediaEnv) (absoluteImageUrl : String)
    (sourceConfig destConfig : SiteConfigM) : Except String Nat × List MediaEvent :=
    let finalUrl := getFinalUrl absoluteImageUrl sourceConfig.proxyUrl
    match env.download finalUrl with
    | .error _ =>
      let msg := match sourceConfig.proxyUrl with
        | some p => downloadNetworkProxyMessage p
        | none => downloadNetworkDirectMessage
      (.error msg, [.downloadCall finalUrl])
    | .ok imageResponse =>
      if imageResponse.ok = false then
        (.error (downloadHttpFailureMessage imageResponse.status imageResponse.statusText), [.downloadCall finalUrl])
      else
        match env.upload (getFinalUrl (destConfig.url ++ "/wp-json/wp/v2/media") destConfig.proxyUrl) with
        | .error e => (.error (uploadWrapMessage e), [.downloadCall finalUrl, .uploadCall])
        | .ok response =>
          if response.ok = false then
            (.error (uploadWrapMessage (jsErrorMessage "Unknown media upload error"
                ("Media upload to destination failed: " ++ response.statusText) response.body)),
             [.downloadCall finalUrl, .uploadCall])
          else
            (.ok response.mediaId, [.downloadCall finalUrl, .uploadCall])

/-- Media transfer `uploadMedia`: resolve the asset URL (absolute as-is,
else relative to the source base URL, else a terminal error that issues no
request), then download and re-upload it.  Returns the outcome together
with the list of remote calls issued, in order. -/
def uploadMedia (u : UrlModel) (env : MediaEnv) (imageUrl : String)
    (sourceConfig destConfig : SiteConfigM) : Except String Nat × List MediaEvent :=
  match resolveImageUrl u imageUrl sourceConfig.url with
  | .error e => (.error e, [])
  | .ok absoluteImageUrl => uploadMediaFromUrl env absoluteImageUrl sourceConfig destConfig

/-- Taxonomy kind of a term, the `taxonomy` field of the source `WpTerm`. -/
inductive TermKind where
  | category : TermKind
  | post_tag : TermKind
deriving DecidableEq

/-- A source-side taxonomy term as `findOrCreateTerm` consumes it. -/
structure WpTerm where
  id : Nat
  name : String
  slug : String
  taxonomy : TermKind
deriving DecidableEq

/-- REST collection used for a term kind:
`term.taxonomy === 'category' ? 'categories' : 'tags'`. -/
def taxonomyEndpoint (k : TermKind) : String :=
  if k = TermKind.category then "categories" else "tags"

/-- A term as it exists on the destination site. -/
structure DestTerm where
  id : Nat
  name : String
  slug : String
  endpoint : String
deriving DecidableEq

/-- The destination site's term collections together with its next fresh id.
The two endpoint behaviours consumed by `findOrCreateTerm` follow the wire
protocol of the spec (terms by taxonomy with slug filter, and create):
`termQuery` returns the terms of the endpoint whose slug matches, and
`createDestTerm` appends a fresh term and returns it. -/
structure DestTaxState where
  terms : List DestTerm
  nextId : Nat
deriving DecidableEq

/-- Destination lookup `GET /wp/v2/<endpoint>?slug=<slug>`. -/
def termQuery (st : DestTaxState) (endpoint slug : String) : List DestTerm :=
  st.terms.filter (fun t => t.endpoint == endpoint && t.slug == slug)

/-- Destination creation `POST /wp/v2/<endpoint>` with `{name, slug}`. -/
def createDestTerm (st : DestTaxState) (endpoint name slug : String) : DestTerm × DestTaxState :=
  let t : DestTerm := { id := st.nextId, name := name, slug := slug, endpoint := endpoint }
  (t, { terms := st.terms ++ [t], nextId := st.nextId + 1 })

/-- A destination with no terms at all. -/
def emptyTaxState : DestTaxState :=
  { terms := [], nextId := 1 }

/-- Outcome of one `findOrCreateTerm` call: the returned id, the destination
state afterwards, and how many lookup and create requests were issued. -/
structure ResolveOutcome where
  id : Nat
  state : DestTaxState
  lookupCalls : Nat
  createCalls : Nat
deriving DecidableEq

/-- Taxonomy resolver `findOrCreateTerm`: always look the slug up on the
destination; return the first match's id when any match exists, otherwise
create a term with the same name and slug and return the new id. -/
def findOrCreateTerm (term : WpTerm) (st : DestTaxState) : ResolveOutcome :=
  let endpoint := taxonomyEndpoint term.taxonomy
  let existingTerms := termQuery st endpoint term.slug
  match existingTerms with
  | t :: _ => { id := t.id, state := st, lookupCalls := 1, createCalls := 0 }
  | [] =>
    let created := createDestTerm st endpoint term.name term.slug
    { id := created.1.id, state := created.2, lookupCalls := 1, createCalls := 1 }

/-- Creation payload `transferContent` builds (`CreateContentPayload` of
types.ts; the optional fields are attached only when set). -/
structure CreateContentPayload where
  title : String
  content : String
  status : String
  categories : Option (List Nat) := none
  tags : Option (List Nat) := none
  featured_media : Option Nat := none
deriving DecidableEq

/-- Embedded featured-media snapshot `_embedded['wp:featuredmedia'][0]` as
`transferContent` consumes it. -/
structure FeaturedMedia where
  source_url : String
  file : String
deriving DecidableEq

/-- The fields of a `WpContent` item that `transferContent` reads:
`title.rendered`, `content.rendered`, `status`, the optional first
featured-media embed, and the flattened embedded terms
`_embedded['wp:term']?.flat() || []`. -/
structure WpContentM where
  title : String
  content : String
  status : String
  featuredMedia : Option FeaturedMedia
  terms : List WpTerm
deriving DecidableEq

/-- Remote interactions of one `transferContent` run: the outcome of the
`uploadMedia` call if one is made, the outcome of the k-th
`findOrCreateTerm` call (numbered from 0), and the outcome of the final
content-creation request. -/
structure TransferOracle where
  media : Except String Nat
  term : Nat → Except String Nat
  create : Except String Unit

/-- Remote calls `transferContent` issues, in order.  The creation call
carries the payload sent.  No constructor deletes anything on the
destination: the engine performs no rollback calls of any kind. -/
inductive CallEvent where
  | mediaUploadCall : CallEvent
  | termResolveCall : Nat → CallEvent
  | contentCreateCall : CreateContentPayload → CallEvent
deriving DecidableEq

/-- The term-resolution loop of `transferContent`: resolve each embedded
term in order, partitioning the returned ids into category and tag lists;
the first failure aborts the loop. -/
def resolveTermsLoop (oracle : Nat → Except String Nat) :
    Nat → List WpTerm → List Nat → List Nat →
    Except String (List Nat × List Nat) × List CallEvent
  | _, [], categoryIds, tagIds => (.ok (categoryIds, tagIds), [])
  | i, term :: rest, categoryIds, tagIds =>
    match oracle i with
    | .error e => (.error e, [.termResolveCall i])
    | .ok newTermId =>
      let next :=
        if term.taxonomy = TermKind.category then
          resolveTermsLoop oracle (i + 1) rest (categoryIds ++ [newTermId]) tagIds
        else
          resolveTermsLoop oracle (i + 1) rest categoryIds (tagIds ++ [newTermId])
      (next.1, .termResolveCall i :: next.2)

/-- Transfer orchestrator `transferContent`: build `{title, content, status}`,
optionally transfer the featured media (skipped when `skipImageTransfer` is
set or no featured-media embed is present; a failure is wrapped as
`Media transfer failed: …`), for posts resolve every embedded term (a failure
is wrapped as `Taxonomy (category/tag) transfer failed: …`) attaching only
non-empty id lists, and finally issue the creation call (a failure is wrapped
as `<singular> creation failed: …`).  Returns the outcome together with the
remote calls issued, in order. -/
def transferContent (content : WpContentM) (contentType : ContentType)
    (oracle : TransferOracle) (skipImageTransfer : Bool) :
    Except String Unit × List CallEvent :=
  let contentPayload : CreateContentPayload :=
    { title := content.title, content := content.content, status := content.status }
  let mediaStep : Except String CreateContentPayload × List CallEvent :=
    if skipImageTransfer then (.ok contentPayload, [])
    else
      match content.featuredMedia with
      | none => (.ok contentPayload, [])
      | some _ =>
        match oracle.media with
        | .error e => (.error ("Media transfer failed: " ++ e), [.mediaUploadCall])
        | .ok newMediaId =>
          (.ok { contentPayload with featured_media := some newMediaId }, [.mediaUploadCall])
  match mediaStep with
  | (.error e, trace) => (.error e, trace)
  | (.ok payload1, trace1) =>
    let taxStep : Except String CreateContentPayload × List CallEvent :=
      match contentType with
      | .pages => (.ok payload1, [])
      | .posts =>
        match resolveTermsLoop oracle.term 0 content.terms [] [] with
        | (.error e, trace) =>
          (.error ("Taxonomy (category/tag) transfer failed: " ++ e), trace)
        | (.ok (categoryIds, tagIds), trace) =>
          (.ok { payload1 with
                   categories := if categoryIds.length > 0 then some categoryIds else none,
                   tags := if tagIds.length > 0 then some tagIds else none }, trace)
    match taxStep with
    | (.error e, trace2) => (.error e, trace1 ++ trace2)
    | (.ok payload2, trace2) =>
      match oracle.create with
      | .error e =>
        (.error (contentTypeSingular contentType ++ " creation failed: " ++ e),
         trace1 ++ trace2 ++ [.contentCreateCall payload2])
      | .ok _ => (.ok (), trace1 ++ trace2 ++ [.contentCreateCall payload2])

/-- Per-item transfer status (`ItemStatus` of types.ts). -/
inductive ItemStatus where
  | idle : ItemStatus
  | exporting : ItemStatus
  | success : ItemStatus
  | error : String → ItemStatus
deriving DecidableEq

/-- Terminal status written by `handleExportItem` for a transfer outcome. -/
def terminalOf (r : Except String Unit) : ItemStatus :=
  match r with
  | .ok _ => .success
  | .error m => .error m

/-- Whether a status is `error`. -/
def ItemStatus.isError : ItemStatus → Bool
  | .error _ => true
  | _ => false

/-- Whether a status is terminal (`success` or `error`). -/
def ItemStatus.isTerminal : ItemStatus → Bool
  | .success => true
  | .error _ => true
  | _ => false

/-- Whether a transfer outcome is a failure. -/
def isFailure (r : Except String Unit) : Bool :=
  match r with
  | .error _ => true
  | .ok _ => false

/-- Status-map writes of `MigrationPage`, as `(itemId, newStatus)` events:
each `setItemStatuses(prev => ({ ...prev, [itemId]: s }))` is one event. -/
def applyEvent (statuses : Nat → ItemStatus) (e : Nat × ItemStatus) : Nat → ItemStatus :=
  fun id => if e.1 == id then e.2 else statuses id

/-- Replay a list of status writes over a status map, in order. -/
def applyEvents (statuses : Nat → ItemStatus) (events : List (Nat × ItemStatus)) :
    Nat → ItemStatus :=
  events.foldl applyEvent statuses

/-- Status writes of one `handleExportItem(itemId)` call: mark the item
`exporting`, run `getFullContentDetails` + `transferContent` (their combined
outcome is `outcome itemId`), and write the terminal status; the catch block
swallows the failure, so the call itself never rejects. -/
def exportItemEvents (outcome : Nat → Except String Unit) (itemId : Nat) :
    List (Nat × ItemStatus) :=
  [(itemId, .exporting), (itemId, terminalOf (outcome itemId))]

/-- Status writes of one `handleBulkExport` run over the selected ids in
iteration order: first one batched write marking every selected item
`exporting`, then the `handleExportItem` writes of each item in order (each
item's transfer finishes before the next begins). -/
def bulkExportEvents (outcome : Nat → Except String Unit) (selected : List Nat) :
    List (Nat × ItemStatus) :=
  (selected.map (fun id => (id, ItemStatus.exporting)))
    ++ (selected.map (exportItemEvents outcome)).flatten

/-- The successive statuses one item passes through under a list of status
writes, starting from its initial status. -/
def statusTrace (init : ItemStatus) (events : List (Nat × ItemStatus)) (id : Nat) :
    List ItemStatus :=
  init :: (events.filter (fun e => e.1 == id)).map Prod.snd

/-- Adjacent pairs of a list: the transitions of a status trace. -/
def adjacentPairs : List ItemStatus → List (ItemStatus × ItemStatus)
  | a :: b :: rest => (a, b) :: adjacentPairs (b :: rest)
  | _ => []

/-! Concrete fixtures used by the witness theorems below. -/

def sampleBatchOutcome : Nat → Except String Unit :=
  fun id => if id = 2 then .error "Internal Server Error" else .ok ()

def sampleTermA : WpTerm := { id := 9, name := "News", slug := "news", taxonomy := .category }

def sampleTermB : WpTerm := { id := 3, name := "Tips", slug := "tips", taxonomy := .post_tag }

def sampleContent : WpContentM :=
  { title := "T"
    content := "B"
    status := "publish"
    featuredMedia := none
    terms := [sampleTermA, sampleTermB] }

def sampleFailOracle : TransferOracle :=
  { media := .ok 77
    term := fun k => if k = 0 then .ok 5 else .error "HTTP error! status: 500"
    create := .ok () }

def urlModelAbs : UrlModel :=
  { isAbsoluteUrl := fun _ => true
    resolveRelative := fun _ _ => none }

def urlModelRel : UrlModel :=
  { isAbsoluteUrl := fun _ => false
    resolveRelative := fun p b => some (b ++ p) }

def urlModelFail : UrlModel :=
  { isAbsoluteUrl := fun _ => false
    resolveRelative := fun _ _ => none }

def sampleMediaEnv : MediaEnv :=
  { download := fun _ => .ok { ok := true, status := 200, statusText := "OK" }
    upload := fun _ => .ok { ok := true, statusText := "Created", body := .parsed none, mediaId := 42 } }

def sampleSourceConfig : SiteConfigM := { url := "https://src.example", proxyUrl := none }

def sampleDestConfig : SiteConfigM := { url := "https://dst.example", proxyUrl := none }

def serverFetchMsgEnv : ValidateEnv :=
  { root := .ok { ok := true, status := 200 }
    auth := .ok { ok := false, status := 502, body := .parsed (some "Proxy: Failed to fetch upstream") } }

def plainNetworkFailEnv : ValidateEnv :=
  { root := .ok { ok := true, status := 200 }
    auth := .error "NetworkError when attempting to fetch resource." }

def singlePageResp : FirstPageResponse Nat :=
  { ok := true
    status := 200
    errorBody := .parsed none
    totalPagesHeader := some "1"
    totalHeader := some "1"
    items := [10] }

def singlePageEnv : FetchEnv Nat :=
  { firstPage := .ok singlePageResp
    page := fun _ => .error "unused" }

def twoPageResp : FirstPageResponse Nat :=
  { ok := true
    status := 200
    errorBody := .parsed none
    totalPagesHeader := some "2"
    totalHeader := some "3"
    items := [1] }

def twoPageEnv : FetchEnv Nat :=
  { firstPage := .ok twoPageResp
    page := fun _ => .ok { ok := true, status := 200, errorBody := .parsed none, value := [2, 3] } }

def downFirstPageEnv : FetchEnv Nat :=
  { firstPage := .error "Failed to fetch"
    page := fun _ => .error "unused" }

def failingSecondPageEnv : FetchEnv Nat :=
  { firstPage := .ok twoPageResp
    page := fun _ => .error "boom" }

def wrongCredentialsEnv : ValidateEnv :=
  { root := .ok { ok := true, status := 200 }
    auth := .ok { ok := false, status := 401, body := .parsed none } }

def serverErrorNoBodyEnv : ValidateEnv :=
  { root := .ok { ok := true, status := 200 }
    auth := .ok { ok := false, status := 500, body := .parsed none } }

def serverMessageEnv : ValidateEnv :=
  { root := .ok { ok := true, status := 200 }
    auth := .ok { ok := false, status := 500, body := .parsed (some "Insufficient storage") } }

/-! Helper lemmas about the `Except` monad's operations and the models above. -/

theorem exceptBind_ok {α β : Type} (a : α) (k : α → Except String β) :
    (Except.ok a : Except String α) >>= k = k a := rfl

theorem exceptBind_error {α β : Type} (e : String) (k : α → Except String β) :
    (Except.error e : Except String α) >>= k = Except.error e := rfl

theorem exceptThrow (α : Type) (e : String) : (throw e : Except String α) = .error e := rfl

theorem exceptPure {α : Type} (a : α) : (pure a : Except String α) = .ok a := rfl

theorem promiseAll_rejects {β : Type} (l : List (Except String β)) (e : String)
    (h : Except.error e ∈ l) : ∃ msg, promiseAll l = .error msg := by
  induction l with
  | nil => simp at h
  | cons r rest ih =>
    rw [List.mem_cons] at h
    rcases h with h | h
    · exact ⟨e, by simp [promiseAll, ← h]⟩
    · cases hr : r with
      | error e2 => exact ⟨e2, by simp [promiseAll]⟩
      | ok v =>
        obtain ⟨msg, hmsg⟩ := ih h
        exact ⟨msg, by simp [promiseAll, hmsg]⟩

/-- C1: for a successful fetch the returned sequence is complete — with
`totalPages = 1` (as parsed from the header) it is exactly the first-page
items in the order received, and with `totalPages = N > 1` and all remaining
pages succeeding it is the first page followed by all remaining pages, which
under consistent server headers (`totalItems` equal to the sum of the page
sizes) and globally distinct items has exactly `totalItems` items, no
duplicates and no omissions, its members being exactly the union of all
pages — independent of inter-page completion order, since `Promise.all`
yields results in page order. -/
theorem getContent_complete {α : Type} (env : FetchEnv α) (ct : ContentType)
    (resp : FirstPageResponse α)
    (h1 : env.firstPage = .ok resp) (h2 : resp.ok = true) :
    (totalPagesOf resp = some 1 → getContent env ct = .ok resp.items) ∧
    (∀ N : Int, totalPagesOf resp = some N → 1 < N →
      ∀ pages : List (List α),
        promiseAll ((pageNums (some N)).map (fun p => apiFetch (env.page p))) = .ok pages →
        ∀ T : Nat, totalItemsOf resp = some (T : Int) →
          T = resp.items.length + (pages.map List.length).sum →
          (resp.items ++ pages.flatten).Nodup →
          ∃ l, getContent env ct = .ok l ∧ l.length = T ∧ l.Nodup ∧
            ∀ x, x ∈ l ↔ x ∈ resp.items ∨ ∃ p ∈ pages, x ∈ p) := by
  constructor
  · intro hN
    simp [getContent, h1, h2, exceptBind_ok, hN, atMostOnePage, exceptPure]
  · intro N hN hN1 pages hpages T hT hTlen hnd
    have hle : ¬ (N ≤ 1) := by omega
    refine ⟨resp.items ++ pages.flatten, ?_, ?_, hnd, ?_⟩
    · simp [getContent, h1, h2, exceptBind_ok, hN, atMostOnePage, hle, hpages, exceptPure]
    · simp [List.length_append, List.length_flatten]
      omega
    · intro x
      simp [List.mem_append, List.mem_flatten]

/-- C2: the fetch is all-or-nothing — a network failure or non-2xx response
on the first page fails the whole fetch immediately, and a failure of any
remaining page (any member of the fan-out page list) fails the whole fetch,
so no partial item list is ever returned to the caller. -/
theorem getContent_all_or_nothing {α : Type} (env : FetchEnv α) (ct : ContentType) :
    (∀ e, env.firstPage = .error e → getContent env ct = .error e) ∧
    (∀ resp, env.firstPage = .ok resp → resp.ok = false →
      getContent env ct = .error (jsErrorMessage ("Unknown error getting " ++ contentTypeName ct)
        ("HTTP error! status: " ++ toString resp.status) resp.errorBody)) ∧
    (∀ resp, env.firstPage = .ok resp → resp.ok = true →
      ∀ k, k ∈ pageNums (totalPagesOf resp) → ∀ e, apiFetch (env.page k) = .error e →
        ∃ msg, getContent env ct = .error msg) := by
  refine ⟨?_, ?_, ?_⟩
  · intro e h
    simp [getContent, h, exceptBind_error]
  · intro resp h1 h2
    simp [getContent, h1, h2, exceptBind_ok, exceptThrow]
  · intro resp h1 h2 k hk e he
    have hmem : Except.error e ∈ (pageNums (totalPagesOf resp)).map (fun p => apiFetch (env.page p)) := by
      rw [← he]
      exact List.mem_map_of_mem _ hk
    obtain ⟨msg, hmsg⟩ := promiseAll_rejects _ e hmem
    -- the fan-out branch is taken: atMostOnePage must be false whenever pageNums is nonempty
    have hfalse : atMostOnePage (totalPagesOf resp) = false := by
      cases htp : totalPagesOf resp with
      | none => simp [atMostOnePage]
      | some t =>
        by_contra hb
        rw [Bool.not_eq_false, atMostOnePage, decide_eq_true_eq] at hb
        rw [htp] at hk
        simp [pageNums, hb] at hk
    refine ⟨msg, ?_⟩
    simp [getContent, h1, h2, exceptBind_ok, hfalse, hmsg, exceptBind_error]

theorem terminalOf_isTerminal (r : Except String Unit) : (terminalOf r).isTerminal = true := by
  cases r <;> rfl

theorem terminalOf_isError (r : Except String Unit) : (terminalOf r).isError = isFailure r := by
  cases r <;> rfl

theorem applyEvents_filter (init : Nat → ItemStatus) (events : List (Nat × ItemStatus)) (id : Nat) :
    applyEvents init events id
      = ((events.filter (fun e => e.1 == id)).foldl (fun _ e => e.2) (init id)) := by
  induction events generalizing init with
  | nil => rfl
  | cons e rest ih =>
    show applyEvents (applyEvent init e) rest id = _
    rw [ih]
    by_cases he : (e.1 == id) = true
    · simp [applyEvent, he, List.filter_cons]
    · rw [Bool.not_eq_true] at he
      simp [applyEvent, he, List.filter_cons]

theorem filter_marks_of_not_mem (sel : List Nat) (id : Nat) (st : ItemStatus) (h : id ∉ sel) :
    (sel.map (fun i => (i, st))).filter (fun e => e.1 == id) = [] := by
  induction sel with
  | nil => rfl
  | cons a t ih =>
    have ha : a ≠ id := fun hh => h (hh ▸ List.mem_cons_self a t)
    simp only [List.map_cons, List.filter_cons]
    rw [if_neg (by simp [beq_eq_false_iff_ne.mpr ha])]
    exact ih (fun hm => h (List.mem_cons_of_mem a hm))

theorem filter_marks_of_mem (sel : List Nat) (id : Nat) (st : ItemStatus)
    (hnd : sel.Nodup) (h : id ∈ sel) :
    (sel.map (fun i => (i, st))).filter (fun e => e.1 == id) = [(id, st)] := by
  induction sel with
  | nil => cases h
  | cons a t ih =>
    rw [List.nodup_cons] at hnd
    rw [List.mem_cons] at h
    rcases h with h | h
    · subst h
      simp only [List.map_cons, List.filter_cons]
      rw [if_pos (by simp), filter_marks_of_not_mem t id st hnd.1]
    · have ha : a ≠ id := fun hh => hnd.1 (hh ▸ h)
      simp only [List.map_cons, List.filter_cons]
      rw [if_neg (by simp [beq_eq_false_iff_ne.mpr ha])]
      exact ih hnd.2 h

theorem exportItemEvents_filter_self (outcome : Nat → Except String Unit) (id : Nat) :
    (exportItemEvents outcome id).filter (fun e => e.1 == id) = exportItemEvents outcome id := by
  simp [exportItemEvents, List.filter_cons]

theorem exportItemEvents_filter_other (outcome : Nat → Except String Unit) (a id : Nat)
    (h : a ≠ id) :
    (exportItemEvents outcome a).filter (fun e => e.1 == id) = [] := by
  simp [exportItemEvents, List.filter_cons, beq_eq_false_iff_ne.mpr h]

theorem blocks_filter_of_not_mem (outcome : Nat → Except String Unit) (sel : List Nat)
    (id : Nat) (h : id ∉ sel) :
    ((sel.map (exportItemEvents outcome)).flatten).filter (fun e => e.1 == id) = [] := by
  induction sel with
  | nil => rfl
  | cons a t ih =>
    have ha : a ≠ id := fun hh => h (hh ▸ List.mem_cons_self a t)
    rw [List.map_cons, List.flatten_cons, List.filter_append,
      exportItemEvents_filter_other outcome a id ha,
      ih (fun hm => h (List.mem_cons_of_mem a hm))]
    rfl

theorem blocks_filter_of_mem (outcome : Nat → Except String Unit) (sel : List Nat)
    (id : Nat) (hnd : sel.Nodup) (h : id ∈ sel) :
    ((sel.map (exportItemEvents outcome)).flatten).filter (fun e => e.1 == id)
      = exportItemEvents outcome id := by
  induction sel with
  | nil => cases h
  | cons a t ih =>
    rw [List.nodup_cons] at hnd
    rw [List.mem_cons] at h
    rcases h with h | h
    · subst h
      rw [List.map_cons, List.flatten_cons, List.filter_append,
        exportItemEvents_filter_self, blocks_filter_of_not_mem outcome t id hnd.1,
        List.append_nil]
    · have ha : a ≠ id := fun hh => hnd.1 (hh ▸ h)
      rw [List.map_cons, List.flatten_cons, List.filter_append,
        exportItemEvents_filter_other outcome a id ha, ih hnd.2 h, List.nil_append]

theorem bulkEvents_filter (outcome : Nat → Except String Unit) (sel : List Nat) (id : Nat)
    (hnd : sel.Nodup) (h : id ∈ sel) :
    (bulkExportEvents outcome sel).filter (fun e => e.1 == id)
      = [(id, .exporting), (id, .exporting), (id, terminalOf (outcome id))] := by
  rw [bulkExportEvents, List.filter_append, filter_marks_of_mem sel id _ hnd h,
    blocks_filter_of_mem outcome sel id hnd h]
  rfl

theorem bulk_final_status (outcome : Nat → Except String Unit) (sel : List Nat)
    (hnd : sel.Nodup) (id : Nat) (h : id ∈ sel) :
    applyEvents (fun _ => .idle) (bulkExportEvents outcome sel) id = terminalOf (outcome id) := by
  rw [applyEvents_filter, bulkEvents_filter outcome sel id hnd h]
  rfl

theorem marks_filter_terminal (sel : List Nat) :
    (sel.map (fun id => (id, ItemStatus.exporting))).filter (fun e => e.2.isTerminal) = [] := by
  induction sel with
  | nil => rfl
  | cons a t ih =>
    simp only [List.map_cons, List.filter_cons]
    rw [if_neg (by simp [ItemStatus.isTerminal])]
    exact ih

theorem blocks_filter_terminal (outcome : Nat → Except String Unit) (sel : List Nat) :
    ((sel.map (exportItemEvents outcome)).flatten).filter (fun e => e.2.isTerminal)
      = sel.map (fun id => (id, terminalOf (outcome id))) := by
  induction sel with
  | nil => rfl
  | cons a t ih =>
    rw [List.map_cons, List.flatten_cons, List.filter_append, ih, List.map_cons]
    simp only [exportItemEvents, List.filter_cons]
    rw [if_neg (by simp [ItemStatus.isTerminal]), if_pos (by simp [terminalOf_isTerminal])]
    rfl

theorem bulk_terminal_order (outcome : Nat → Except String Unit) (sel : List Nat) :
    (bulkExportEvents outcome sel).filter (fun e => e.2.isTerminal)
      = sel.map (fun id => (id, terminalOf (outcome id))) := by
  rw [bulkExportEvents, List.filter_append, marks_filter_terminal,
    blocks_filter_terminal, List.nil_append]

/-- C3: a bulk export transfers the selected items one at a time in
selection order (the terminal status writes appear exactly in selection
order), a per-item failure never aborts the remaining queue (every selected
item ends at the terminal status determined by its own transfer outcome),
and the number of items ending in `error` equals the number of failing
outcomes — in a batch of 3 where only item 2 fails, items 1 and 3 reach
`success`, item 2 reaches `error` with the failure message, and exactly one
item is in error (see the witness). -/
theorem bulkExport_per_item (outcome : Nat → Except String Unit) (sel : List Nat)
    (hnd : sel.Nodup) :
    ((bulkExportEvents outcome sel).filter (fun e => e.2.isTerminal)
        = sel.map (fun id => (id, terminalOf (outcome id)))) ∧
    (∀ id ∈ sel, applyEvents (fun _ => .idle) (bulkExportEvents outcome sel) id
        = terminalOf (outcome id)) ∧
    ((sel.filter (fun id =>
        (applyEvents (fun _ => .idle) (bulkExportEvents outcome sel) id).isError)).length
      = (sel.filter (fun id => isFailure (outcome id))).length) := by
  refine ⟨bulk_terminal_order outcome sel,
    fun id h => bulk_final_status outcome sel hnd id h, ?_⟩
  have heq : sel.filter (fun id =>
        (applyEvents (fun _ => .idle) (bulkExportEvents outcome sel) id).isError)
      = sel.filter (fun id => isFailure (outcome id)) := by
    apply List.filter_congr
    intro x hx
    rw [bulk_final_status outcome sel hnd x hx, terminalOf_isError]
  rw [heq]

/-- Witness for C3: the batch of 3 in which only item 2 fails. -/
theorem bulkExport_per_item_witness :
    ([1, 2, 3] : List Nat).Nodup ∧
    applyEvents (fun _ => .idle) (bulkExportEvents sampleBatchOutcome [1, 2, 3]) 1 = .success ∧
    applyEvents (fun _ => .idle) (bulkExportEvents sampleBatchOutcome [1, 2, 3]) 2
      = .error "Internal Server Error" ∧
    applyEvents (fun _ => .idle) (bulkExportEvents sampleBatchOutcome [1, 2, 3]) 3 = .success ∧
    (([1, 2, 3] : List Nat).filter (fun id =>
        (applyEvents (fun _ => .idle) (bulkExportEvents sampleBatchOutcome [1, 2, 3]) id).isError)).length
      = 1 := by
  have h := bulkExport_per_item sampleBatchOutcome [1, 2, 3] (by decide)
  exact ⟨by decide, h.2.1 1 (by decide), h.2.1 2 (by decide), h.2.1 3 (by decide),
    h.2.2.trans (by decide)⟩

/-- C4 (amended): during a bulk export each selected item's status trace is
exactly `idle → exporting → exporting → (success | error)` — the bulk
pre-mark sets every selected item `exporting` and `handleExportItem`
unconditionally re-marks the item `exporting` when its turn begins, so the
write-level self-transition `exporting → exporting` does occur (there is no
in-handler guard); within a single `handleExportItem` invocation the item is
marked `exporting` exactly once and then reaches exactly one terminal
status. -/
theorem bulkExport_status_transitions (outcome : Nat → Except String Unit) (sel : List Nat)
    (hnd : sel.Nodup) (id : Nat) (hid : id ∈ sel) :
    statusTrace .idle (bulkExportEvents outcome sel) id
      = [.idle, .exporting, .exporting, terminalOf (outcome id)] ∧
    ∀ s : ItemStatus, statusTrace s (exportItemEvents outcome id) id
      = [s, .exporting, terminalOf (outcome id)] := by
  constructor
  · rw [statusTrace, bulkEvents_filter outcome sel id hnd hid]
    rfl
  · intro s
    rw [statusTrace, exportItemEvents_filter_self]
    rfl

/-- Witness for C4's amended statement at the 3-item batch. -/
theorem bulkExport_status_transitions_witness :
    statusTrace .idle (bulkExportEvents sampleBatchOutcome [1, 2, 3]) 2
      = [.idle, .exporting, .exporting, .error "Internal Server Error"] :=
  (bulkExport_status_transitions sampleBatchOutcome [1, 2, 3] (by decide) 2 (by decide)).1

/-- C4 counterexample: the claim that the transition
`exporting → exporting` never occurs is false — already in a bulk export of
a single item, the item is set to `exporting` by the bulk pre-mark and set
to `exporting` again when `handleExportItem` runs for it, an adjacent
`(exporting, exporting)` pair in its status trace. -/
theorem bulkExport_reenters_exporting :
    (ItemStatus.exporting, ItemStatus.exporting) ∈
      adjacentPairs (statusTrace .idle (bulkExportEvents (fun _ => .ok ()) [1]) 1) := by
  decide

theorem resolveTermsLoop_fail (oracle : Nat → Except String Nat) (e : String) :
    ∀ (k : Nat) (i : Nat) (terms : List WpTerm) (cats tags : List Nat),
      k < terms.length →
      oracle (i + k) = .error e →
      (∀ j, j < k → ∃ v, oracle (i + j) = .ok v) →
      resolveTermsLoop oracle i terms cats tags
        = (.error e, (List.range (k + 1)).map (fun j => .termResolveCall (i + j))) := by
  intro k
  induction k with
  | zero =>
    intro i terms cats tags hlen hfail _
    match terms with
    | [] => simp at hlen
    | t :: rest =>
      rw [Nat.add_zero] at hfail
      simp only [resolveTermsLoop, hfail]
      rfl
  | succ k ih =>
    intro i terms cats tags hlen hfail hok
    match terms with
    | [] => simp at hlen
    | t :: rest =>
      obtain ⟨v, hv⟩ := hok 0 (Nat.succ_pos k)
      rw [Nat.add_zero] at hv
      have hrec : ∀ cats2 tags2 : List Nat,
          resolveTermsLoop oracle (i + 1) rest cats2 tags2
            = (.error e, (List.range (k + 1)).map (fun j => .termResolveCall (i + 1 + j))) := by
        intro cats2 tags2
        apply ih (i + 1) rest cats2 tags2
        · simp [List.length_cons] at hlen
          omega
        · rw [show i + 1 + k = i + (k + 1) by omega]
          exact hfail
        · intro j hj
          rw [show i + 1 + j = i + (j + 1) by omega]
          exact hok (j + 1) (Nat.succ_lt_succ hj)
      have hshape : (List.range (k + 1 + 1)).map (fun j => CallEvent.termResolveCall (i + j))
          = CallEvent.termResolveCall i
            :: (List.range (k + 1)).map (fun j => CallEvent.termResolveCall (i + 1 + j)) := by
        rw [List.range_succ_eq_map]
        simp only [List.map_cons, List.map_map, Nat.add_zero]
        congr 1
        apply List.map_congr_left
        intro j _
        show CallEvent.termResolveCall (i + (j + 1)) = CallEvent.termResolveCall (i + 1 + j)
        exact congrArg CallEvent.termResolveCall (by omega)
      rw [hshape]
      by_cases ht : t.taxonomy = TermKind.category
      · simp [resolveTermsLoop, hv, ht, hrec]
      · simp [resolveTermsLoop, hv, ht, hrec]

/-- C5: when the media stage passes (skipped, absent, or successful) and
the k-th term resolution of a post fails while all earlier ones succeed,
`transferContent` returns the taxonomy-stage error and the content-creation
call is never issued (no `contentCreateCall` event in the trace), while the
term-resolution calls made up to and including the failure remain in the
trace and no compensating call exists (the call vocabulary has no deletion):
terms already created on the destination are not rolled back. -/
theorem transferContent_taxonomy_abort (content : WpContentM) (oracle : TransferOracle)
    (skipImageTransfer : Bool) (k : Nat) (e : String)
    (hmedia : skipImageTransfer = true ∨ content.featuredMedia = none ∨
      ∃ mid, oracle.media = .ok mid)
    (hk : k < content.terms.length)
    (hfail : oracle.term k = .error e)
    (hbefore : ∀ j, j < k → ∃ v, oracle.term j = .ok v) :
    (transferContent content .posts oracle skipImageTransfer).1
        = .error ("Taxonomy (category/tag) transfer failed: " ++ e) ∧
    (∀ p, CallEvent.contentCreateCall p ∉ (transferContent content .posts oracle skipImageTransfer).2) ∧
    (∀ j, j ≤ k → CallEvent.termResolveCall j ∈ (transferContent content .posts oracle skipImageTransfer).2) := by
  have hloop : resolveTermsLoop oracle.term 0 content.terms [] []
      = (.error e, (List.range (k + 1)).map (fun j => .termResolveCall (0 + j))) := by
    apply resolveTermsLoop_fail oracle.term e k 0 content.terms [] [] hk
    · rw [Nat.zero_add]; exact hfail
    · intro j hj; rw [Nat.zero_add]; exact hbefore j hj
  have hloop2 : resolveTermsLoop oracle.term 0 content.terms [] []
      = (.error e, (List.range (k + 1)).map (fun j => .termResolveCall j)) := by
    rw [hloop]
    simp [Nat.zero_add]
  -- characterize the whole run for each media-stage shape
  have hrun : ∃ pre : List CallEvent,
      (pre = [] ∨ pre = [CallEvent.mediaUploadCall]) ∧
      transferContent content .posts oracle skipImageTransfer
        = (.error ("Taxonomy (category/tag) transfer failed: " ++ e),
           pre ++ (List.range (k + 1)).map (fun j => .termResolveCall j)) := by
    rcases hmedia with hm | hm | ⟨mid, hm⟩
    · exact ⟨[], Or.inl rfl, by simp [transferContent, hm, hloop2]⟩
    · by_cases hs : skipImageTransfer = true
      · exact ⟨[], Or.inl rfl, by simp [transferContent, hs, hloop2]⟩
      · rw [Bool.not_eq_true] at hs
        exact ⟨[], Or.inl rfl, by simp [transferContent, hs, hm, hloop2]⟩
    · by_cases hs : skipImageTransfer = true
      · exact ⟨[], Or.inl rfl, by simp [transferContent, hs, hloop2]⟩
      · rw [Bool.not_eq_true] at hs
        cases hfm : content.featuredMedia with
        | none => exact ⟨[], Or.inl rfl, by simp [transferContent, hs, hfm, hloop2]⟩
        | some fm =>
          exact ⟨[CallEvent.mediaUploadCall], Or.inr rfl,
            by simp [transferContent, hs, hfm, hm, hloop2]⟩
  obtain ⟨pre, hpre, hrun⟩ := hrun
  refine ⟨by rw [hrun], ?_, ?_⟩
  · intro p hp
    rw [hrun] at hp
    simp only [List.mem_append, List.mem_map] at hp
    rcases hp with hp | ⟨j, _, hj⟩
    · rcases hpre with h | h <;> rw [h] at hp <;> simp at hp
    · exact CallEvent.noConfusion hj
  · intro j hj
    rw [hrun]
    simp only [List.mem_append, List.mem_map]
    right
    exact ⟨j, List.mem_range.mpr (Nat.lt_succ_of_le hj), rfl⟩

/-- Witness for C5: a post with two terms whose second resolution fails. -/
theorem transferContent_taxonomy_abort_witness :
    (transferContent sampleContent .posts sampleFailOracle true).1
        = .error "Taxonomy (category/tag) transfer failed: HTTP error! status: 500" ∧
    (∀ p, CallEvent.contentCreateCall p ∉ (transferContent sampleContent .posts sampleFailOracle true).2) ∧
    CallEvent.termResolveCall 0 ∈ (transferContent sampleContent .posts sampleFailOracle true).2 ∧
    CallEvent.termResolveCall 1 ∈ (transferContent sampleContent .posts sampleFailOracle true).2 := by
  have h := transferContent_taxonomy_abort sampleContent sampleFailOracle true 1
    "HTTP error! status: 500" (Or.inl rfl) (by decide) rfl
    (fun j hj => ⟨5, by have hj0 : j = 0 := by omega
                        rw [hj0]
                        rfl⟩)
  exact ⟨h.1, h.2.1, h.2.2 0 (by decide), h.2.2 1 (by decide)⟩

/-- C6: `findOrCreateTerm` always performs exactly one lookup and performs
the create exactly when no slug match exists; called twice with the same
term against an initially empty destination taxonomy it creates exactly one
destination term (one create on the first call, none on the second, one
stored term in the final state) and the second call returns the same id as
the first. -/
theorem findOrCreateTerm_idempotent (term : WpTerm) :
    (∀ st : DestTaxState, (findOrCreateTerm term st).lookupCalls = 1 ∧
      ((findOrCreateTerm term st).createCalls = 0 ↔
        termQuery st (taxonomyEndpoint term.taxonomy) term.slug ≠ [])) ∧
    (findOrCreateTerm term emptyTaxState).createCalls = 1 ∧
    (findOrCreateTerm term (findOrCreateTerm term emptyTaxState).state).createCalls = 0 ∧
    (findOrCreateTerm term (findOrCreateTerm term emptyTaxState).state).state.terms.length = 1 ∧
    (findOrCreateTerm term (findOrCreateTerm term emptyTaxState).state).id
      = (findOrCreateTerm term emptyTaxState).id ∧
    (findOrCreateTerm term emptyTaxState).lookupCalls = 1 ∧
    (findOrCreateTerm term (findOrCreateTerm term emptyTaxState).state).lookupCalls = 1 := by
  have hgen : ∀ st : DestTaxState, (findOrCreateTerm term st).lookupCalls = 1 ∧
      ((findOrCreateTerm term st).createCalls = 0 ↔
        termQuery st (taxonomyEndpoint term.taxonomy) term.slug ≠ []) := by
    intro st
    cases hq : termQuery st (taxonomyEndpoint term.taxonomy) term.slug with
    | nil => simp [findOrCreateTerm, hq]
    | cons t rest => simp [findOrCreateTerm, hq]
  refine ⟨hgen, ?_⟩
  have h1 : findOrCreateTerm term emptyTaxState =
      { id := 1
        state := { terms := [{ id := 1, name := term.name, slug := term.slug,
                               endpoint := taxonomyEndpoint term.taxonomy }], nextId := 2 }
        lookupCalls := 1
        createCalls := 1 } := by
    simp [findOrCreateTerm, termQuery, emptyTaxState, createDestTerm]
  rw [h1]
  have h2 : termQuery
      { terms := [{ id := 1, name := term.name, slug := term.slug,
                    endpoint := taxonomyEndpoint term.taxonomy }], nextId := 2 }
      (taxonomyEndpoint term.taxonomy) term.slug
      = [{ id := 1, name := term.name, slug := term.slug,
           endpoint := taxonomyEndpoint term.taxonomy }] := by
    simp [termQuery, List.filter_cons]
  simp [findOrCreateTerm, h2]

/-- C7 (amended): for a non-2xx response the transport helper's error
carries the `message` field parsed from the JSON body when it is present and
non-empty, falls back to `"HTTP error! status: <code>"` (with the actual
status code) when the body parses but no message field is present, and
carries the fixed string `"Unknown error"` when parsing the body fails. -/
theorem apiFetch_error_message {α : Type} (resp : RawResponse α) (h : resp.ok = false) :
    (∀ m, m ≠ "" → resp.errorBody = .parsed (some m) →
      apiFetch (.ok resp) = .error m) ∧
    (resp.errorBody = .parsed none →
      apiFetch (.ok resp) = .error ("HTTP error! status: " ++ toString resp.status)) ∧
    (resp.errorBody = .parseError →
      apiFetch (.ok resp) = .error "Unknown error") := by
  refine ⟨?_, ?_, ?_⟩
  · intro m hm hb
    simp [apiFetch, exceptBind_ok, h, hb, jsErrorMessage, jsOr, hm, exceptThrow]
  · intro hb
    simp [apiFetch, exceptBind_ok, h, hb, jsErrorMessage, exceptThrow]
  · intro hb
    simp [apiFetch, exceptBind_ok, h, hb, jsErrorMessage, jsOr, exceptThrow]

/-- Witness for C7's amended statement at three concrete 404 responses. -/
theorem apiFetch_error_message_witness :
    apiFetch (α := Unit) (.ok { ok := false, status := 404, errorBody := .parsed (some "Not found"), value := () })
        = .error "Not found" ∧
    apiFetch (α := Unit) (.ok { ok := false, status := 404, errorBody := .parsed none, value := () })
        = .error "HTTP error! status: 404" ∧
    apiFetch (α := Unit) (.ok { ok := false, status := 404, errorBody := .parseError, value := () })
        = .error "Unknown error" := by
  refine ⟨?_, ?_, ?_⟩
  · exact (apiFetch_error_message _ rfl).1 "Not found" (by decide) rfl
  · exact (apiFetch_error_message _ rfl).2.1 rfl
  · exact (apiFetch_error_message _ rfl).2.2 rfl

/-- C7 counterexample: the claim that the error falls back to
`"HTTP error! status: <code>"` whenever parsing the body fails is false — on
a 500 response whose body fails to parse, the catch substitute
`{ message: 'Unknown error' }` wins, and the error is `"Unknown error"`,
not `"HTTP error! status: 500"`. -/
theorem apiFetch_parse_failure_message :
    apiFetch (α := Unit) (.ok { ok := false, status := 500, errorBody := .parseError, value := () })
        = .error "Unknown error" ∧
    "Unknown error" ≠ "HTTP error! status: 500" := by
  exact ⟨rfl, by decide⟩

theorem occursIn_false_of_head_notMem (c : Char) (p : List Char) :
    ∀ l : List Char, c ∉ l → occursIn (c :: p) l = false := by
  intro l
  induction l with
  | nil => intro _; rfl
  | cons d rest ih =>
    intro h
    have hdc : (d == c) = false :=
      beq_eq_false_iff_ne.mpr (fun hh => h (hh ▸ List.mem_cons_self d rest))
    simp only [occursIn, leadsWith, hdc, Bool.false_and, Bool.false_or]
    exact ih (fun hm => h (List.mem_cons_of_mem d hm))

theorem digitChar_ne_F (n : Nat) : Nat.digitChar n ≠ 'F' := by
  rcases Nat.lt_or_ge n 16 with h16 | h16
  · interval_cases n <;> decide
  · unfold Nat.digitChar
    have h0 : ¬ (n = 0) := by omega
    have h1 : ¬ (n = 1) := by omega
    have h2 : ¬ (n = 2) := by omega
    have h3 : ¬ (n = 3) := by omega
    have h4 : ¬ (n = 4) := by omega
    have h5 : ¬ (n = 5) := by omega
    have h6 : ¬ (n = 6) := by omega
    have h7 : ¬ (n = 7) := by omega
    have h8 : ¬ (n = 8) := by omega
    have h9 : ¬ (n = 9) := by omega
    have h10 : ¬ (n = 10) := by omega
    have h11 : ¬ (n = 11) := by omega
    have h12 : ¬ (n = 12) := by omega
    have h13 : ¬ (n = 13) := by omega
    have h14 : ¬ (n = 14) := by omega
    have h15 : ¬ (n = 15) := by omega
    rw [if_neg h0, if_neg h1, if_neg h2, if_neg h3, if_neg h4, if_neg h5, if_neg h6, if_neg h7, if_neg h8, if_neg h9, if_neg h10, if_neg h11, if_neg h12, if_neg h13, if_neg h14, if_neg h15]
    decide

theorem toDigitsCore_chars_ne_F (fuel : Nat) :
    ∀ (n : Nat) (ds : List Char), (∀ x ∈ ds, x ≠ 'F') →
      ∀ c ∈ Nat.toDigitsCore 10 fuel n ds, c ≠ 'F' := by
  induction fuel with
  | zero => intro n ds hds c hc; exact hds c hc
  | succ fuel ih =>
    intro n ds hds c hc
    simp only [Nat.toDigitsCore] at hc
    split at hc
    · rw [List.mem_cons] at hc
      rcases hc with hc | hc
      · exact hc ▸ digitChar_ne_F (n % 10)
      · exact hds c hc
    · refine ih (n / 10) (Nat.digitChar (n % 10) :: ds) ?_ c hc
      intro x hx
      rw [List.mem_cons] at hx
      rcases hx with hx | hx
      · exact hx ▸ digitChar_ne_F (n % 10)
      · exact hds x hx

theorem natRepr_chars_ne_F (n : Nat) : ∀ c ∈ (Nat.repr n).data, c ≠ 'F' := by
  intro c hc
  have : (Nat.repr n).data = Nat.toDigitsCore 10 (n + 1) n [] := rfl
  rw [this] at hc
  exact toDigitsCore_chars_ne_F (n + 1) n [] (by intro x hx; cases hx) c hc

theorem authCheckFallback_no_fetch_marker (status : Nat) :
    jsIncludes (authCheckFallback status) "Failed to fetch" = false := by
  rw [jsIncludes]
  apply occursIn_false_of_head_notMem
  intro h
  have hdata : (authCheckFallback status).toList
      = "Authentication check failed with status: ".data ++ (Nat.repr status).data := rfl
  rw [hdata, List.mem_append] at h
  rcases h with h | h
  · revert h; decide
  · exact natRepr_chars_ne_F status 'F' h rfl

theorem leadsWith_append (p rest : List Char) : leadsWith (p ++ rest) p = true := by
  induction p with
  | nil => cases rest <;> rfl
  | cons a t ih => simp [leadsWith, ih]

theorem authSpecific_ne_fallback (s : Nat) : authSpecificMessage ≠ authCheckFallback s := by
  intro h
  have hd : authSpecificMessage.data
      = "Authentication check failed with status: ".data ++ (Nat.repr s).data := by
    rw [h]; rfl
  have hlead : leadsWith authSpecificMessage.data
      "Authentication check failed with status: ".data = true := by
    rw [hd]; exact leadsWith_append _ _
  revert hlead
  decide

theorem authSpecific_ne_httpError (s : Nat) :
    authSpecificMessage ≠ "HTTP error! status: " ++ toString s := by
  intro h
  have hd : authSpecificMessage.data
      = "HTTP error! status: ".data ++ (Nat.repr s).data := by
    rw [h]; rfl
  have hlead : leadsWith authSpecificMessage.data "HTTP error! status: ".data = true := by
    rw [hd]; exact leadsWith_append _ _
  revert hlead
  decide

theorem validateConnection_error_unclassified (env : ValidateEnv) (msg : String)
    (htry : validateConnectionTry env = .error msg)
    (hmark : jsIncludes msg "Failed to fetch" = false) :
    validateConnection env = .error msg := by
  simp [validateConnection, htry, hmark]

theorem validateConnection_error_classified (env : ValidateEnv) (msg : String)
    (htry : validateConnectionTry env = .error msg)
    (hmark : jsIncludes msg "Failed to fetch" = true) :
    validateConnection env = .error networkErrorMessage := by
  simp [validateConnection, htry, hmark]

/-- C8 (amended): with the REST root reachable and the authenticated check
non-2xx, a 401 or 403 yields exactly the authentication-specific message,
which differs from the generic fallbacks for every status code; any other
non-2xx is reported with the server-provided message when one is present,
with `"Authentication check failed with status: <code>"` (carrying the
status code) when the body has no message, and with
`"Unknown authentication error"` when the body cannot be parsed. -/
theorem validateConnection_auth_step (env : ValidateEnv) (root : RootResponse)
    (auth : AuthResponse)
    (h1 : env.root = .ok root) (h2 : root.ok = true)
    (h3 : env.auth = .ok auth) (h4 : auth.ok = false) :
    ((auth.status = 401 ∨ auth.status = 403) →
      validateConnection env = .error authSpecificMessage) ∧
    (∀ s : Nat, authSpecificMessage ≠ authCheckFallback s) ∧
    (∀ s : Nat, authSpecificMessage ≠ "HTTP error! status: " ++ toString s) ∧
    (¬(auth.status = 401 ∨ auth.status = 403) → auth.body = .parsed none →
      validateConnection env = .error (authCheckFallback auth.status)) ∧
    (¬(auth.status = 401 ∨ auth.status = 403) → auth.body = .parseError →
      validateConnection env = .error "Unknown authentication error") ∧
    (¬(auth.status = 401 ∨ auth.status = 403) →
      ∀ m, auth.body = .parsed (some m) → m ≠ "" →
        jsIncludes m "Failed to fetch" = false →
        validateConnection env = .error m) := by
  refine ⟨?_, authSpecific_ne_fallback, authSpecific_ne_httpError, ?_, ?_, ?_⟩
  · intro hst
    apply validateConnection_error_unclassified env authSpecificMessage
    · simp [validateConnectionTry, h1, h2, h3, h4, hst, exceptBind_ok, exceptThrow]
    · decide
  · intro hst hb
    apply validateConnection_error_unclassified env (authCheckFallback auth.status)
    · simp [validateConnectionTry, h1, h2, h3, h4, hst, hb, jsErrorMessage,
        exceptBind_ok, exceptThrow]
    · exact authCheckFallback_no_fetch_marker auth.status
  · intro hst hb
    apply validateConnection_error_unclassified env "Unknown authentication error"
    · simp [validateConnectionTry, h1, h2, h3, h4, hst, hb, jsErrorMessage, jsOr,
        exceptBind_ok, exceptThrow]
    · decide
  · intro hst m hb hm hfetch
    apply validateConnection_error_unclassified env m
    · simp [validateConnectionTry, h1, h2, h3, h4, hst, hb, jsErrorMessage, jsOr, hm,
        exceptBind_ok, exceptThrow]
    · exact hfetch

theorem uploadMediaFromUrl_download_url (env : MediaEnv) (absUrl : String)
    (sourceConfig destConfig : SiteConfigM) :
    MediaEvent.downloadCall (getFinalUrl absUrl sourceConfig.proxyUrl)
        ∈ (uploadMediaFromUrl env absUrl sourceConfig destConfig).2 ∧
    ∀ url, MediaEvent.downloadCall url ∈ (uploadMediaFromUrl env absUrl sourceConfig destConfig).2 →
      url = getFinalUrl absUrl sourceConfig.proxyUrl := by
  simp only [uploadMediaFromUrl]
  cases hd : env.download (getFinalUrl absUrl sourceConfig.proxyUrl) with
  | error e =>
    dsimp only
    constructor
    · simp
    · intro url h
      simp at h
      exact h
  | ok resp =>
    dsimp only
    by_cases hok : resp.ok = false
    · rw [if_pos hok]
      constructor
      · simp
      · intro url h
        simp at h
        exact h
    · rw [if_neg hok]
      cases hu : env.upload (getFinalUrl (destConfig.url ++ "/wp-json/wp/v2/media") destConfig.proxyUrl) with
      | error e =>
        constructor
        · simp
        · intro url h
          simp at h
          exact h
      | ok uresp =>
        dsimp only
        by_cases huok : uresp.ok = false
        · rw [if_pos huok]
          constructor
          · simp
          · intro url h
            simp at h
            exact h
        · rw [if_neg huok]
          constructor
          · simp
          · intro url h
            simp at h
            exact h

/-- C9: media transfer resolves the asset URL before downloading — a URL
that parses as absolute is used unmodified as the download target (modulo
the proxy prefix), a relative URL is resolved against the source
connection's base URL, and when both constructors fail the operation
terminates with the error naming both the source base URL and the asset
path while issuing no remote call at all. -/
theorem uploadMedia_url_resolution (u : UrlModel) (env : MediaEnv) (imageUrl : String)
    (sourceConfig destConfig : SiteConfigM) :
    (u.isAbsoluteUrl imageUrl = true →
      MediaEvent.downloadCall (getFinalUrl imageUrl sourceConfig.proxyUrl)
          ∈ (uploadMedia u env imageUrl sourceConfig destConfig).2 ∧
      ∀ url, MediaEvent.downloadCall url ∈ (uploadMedia u env imageUrl sourceConfig destConfig).2 →
        url = getFinalUrl imageUrl sourceConfig.proxyUrl) ∧
    (∀ href, u.isAbsoluteUrl imageUrl = false →
      u.resolveRelative imageUrl sourceConfig.url = some href →
      MediaEvent.downloadCall (getFinalUrl href sourceConfig.proxyUrl)
          ∈ (uploadMedia u env imageUrl sourceConfig destConfig).2 ∧
      ∀ url, MediaEvent.downloadCall url ∈ (uploadMedia u env imageUrl sourceConfig destConfig).2 →
        url = getFinalUrl href sourceConfig.proxyUrl) ∧
    (u.isAbsoluteUrl imageUrl = false →
      u.resolveRelative imageUrl sourceConfig.url = none →
      uploadMedia u env imageUrl sourceConfig destConfig
        = (.error (resolveFailureMessage sourceConfig.url imageUrl), [])) := by
  refine ⟨?_, ?_, ?_⟩
  · intro habs
    have hres : resolveImageUrl u imageUrl sourceConfig.url = .ok imageUrl := by
      simp [resolveImageUrl, habs]
    simp only [uploadMedia, hres]
    exact uploadMediaFromUrl_download_url env imageUrl sourceConfig destConfig
  · intro href habs hrel
    have hres : resolveImageUrl u imageUrl sourceConfig.url = .ok href := by
      simp [resolveImageUrl, habs, hrel]
    simp only [uploadMedia, hres]
    exact uploadMediaFromUrl_download_url env href sourceConfig destConfig
  · intro habs hrel
    have hres : resolveImageUrl u imageUrl sourceConfig.url
        = .error (resolveFailureMessage sourceConfig.url imageUrl) := by
      simp [resolveImageUrl, habs, hrel]
    simp only [uploadMedia, hres]

/-- Witness for C9 at an absolute, a relative and an unresolvable URL. -/
theorem uploadMedia_url_resolution_witness :
    MediaEvent.downloadCall "https://a.example/img.png"
        ∈ (uploadMedia urlModelAbs sampleMediaEnv "https://a.example/img.png"
            sampleSourceConfig sampleDestConfig).2 ∧
    MediaEvent.downloadCall "https://src.example/img.png"
        ∈ (uploadMedia urlModelRel sampleMediaEnv "/img.png"
            sampleSourceConfig sampleDestConfig).2 ∧
    uploadMedia urlModelFail sampleMediaEnv "/img.png" sampleSourceConfig sampleDestConfig
        = (.error (resolveFailureMessage "https://src.example" "/img.png"), []) := by
  refine ⟨?_, ?_, ?_⟩
  · exact ((uploadMedia_url_resolution urlModelAbs sampleMediaEnv "https://a.example/img.png"
      sampleSourceConfig sampleDestConfig).1 rfl).1
  · exact ((uploadMedia_url_resolution urlModelRel sampleMediaEnv "/img.png"
      sampleSourceConfig sampleDestConfig).2.1 "https://src.example/img.png" rfl rfl).1
  · exact (uploadMedia_url_resolution urlModelFail sampleMediaEnv "/img.png"
      sampleSourceConfig sampleDestConfig).2.2 rfl rfl

/-- C10: the catch block classifies a failure as the network/CORS
connectivity error exactly when the error message contains the substring
`'Failed to fetch'`; consequently an HTTP-level auth-step failure whose
server-provided message happens to contain that substring is reported as
the connectivity message, and a network-level rejection whose message lacks
the substring is propagated unclassified. -/
theorem validateConnection_fetch_marker (env : ValidateEnv) :
    (∀ msg, validateConnectionTry env = .error msg →
      validateConnection env
        = if jsIncludes msg "Failed to fetch" then .error networkErrorMessage
          else .error msg) ∧
    (∀ root auth m, env.root = .ok root → root.ok = true →
      env.auth = .ok auth → auth.ok = false →
      ¬(auth.status = 401 ∨ auth.status = 403) →
      auth.body = .parsed (some m) → m ≠ "" →
      jsIncludes m "Failed to fetch" = true →
      validateConnection env = .error networkErrorMessage) ∧
    (∀ root e, env.root = .ok root → root.ok = true →
      env.auth = .error e → jsIncludes e "Failed to fetch" = false →
      validateConnection env = .error e) := by
  refine ⟨?_, ?_, ?_⟩
  · intro msg htry
    cases hm : jsIncludes msg "Failed to fetch" with
    | true =>
      rw [if_pos rfl]
      exact validateConnection_error_classified env msg htry hm
    | false =>
      rw [if_neg Bool.false_ne_true]
      exact validateConnection_error_unclassified env msg htry hm
  · intro root auth m h1 h2 h3 h4 hst hb hm hmark
    refine validateConnection_error_classified env m ?_ hmark
    simp [validateConnectionTry, h1, h2, h3, h4, hst, hb, jsErrorMessage, jsOr, hm,
      exceptBind_ok, exceptThrow]
  · intro root e h1 h2 h3 hmark
    refine validateConnection_error_unclassified env e ?_ hmark
    simp [validateConnectionTry, h1, h2, h3, exceptBind_ok, exceptBind_error]

/-- Witness for C10 at the two anomalous classification inputs. -/
theorem validateConnection_fetch_marker_witness :
    validateConnection serverFetchMsgEnv = .error networkErrorMessage ∧
    validateConnection plainNetworkFailEnv
        = .error "NetworkError when attempting to fetch resource." := by
  constructor
  · exact (validateConnection_fetch_marker serverFetchMsgEnv).2.1
      { ok := true, status := 200 }
      { ok := false, status := 502, body := .parsed (some "Proxy: Failed to fetch upstream") }
      "Proxy: Failed to fetch upstream" rfl rfl rfl rfl (by decide) rfl (by decide) (by decide)
  · exact (validateConnection_fetch_marker plainNetworkFailEnv).2.2
      { ok := true, status := 200 }
      "NetworkError when attempting to fetch resource." rfl rfl rfl (by decide)

/-- Witness for C1 at concrete one-page and two-page environments. -/
theorem getContent_complete_witness :
    getContent singlePageEnv ContentType.posts = .ok [10] ∧
    (∃ l, getContent twoPageEnv ContentType.posts = .ok l ∧ l.length = 3 ∧ l.Nodup ∧
      ∀ x, x ∈ l ↔ x ∈ twoPageResp.items ∨ ∃ p ∈ [[2, 3]], x ∈ p) := by
  constructor
  · exact (getContent_complete singlePageEnv ContentType.posts singlePageResp rfl rfl).1 (by decide)
  · exact (getContent_complete twoPageEnv ContentType.posts twoPageResp rfl rfl).2 2 (by decide)
      (by decide) [[2, 3]] rfl 3 (by decide) (by decide) (by decide)

/-- Witness for C2: a failing first page and a failing second page. -/
theorem getContent_all_or_nothing_witness :
    getContent downFirstPageEnv ContentType.posts = .error "Failed to fetch" ∧
    (∃ msg, getContent failingSecondPageEnv ContentType.posts = .error msg) := by
  constructor
  · exact (getContent_all_or_nothing downFirstPageEnv ContentType.posts).1 "Failed to fetch" rfl
  · exact (getContent_all_or_nothing failingSecondPageEnv ContentType.posts).2.2 twoPageResp
      rfl rfl 2 (by decide) "boom" rfl

/-- Witness for C8's amended statement at a 401 and a message-less 500. -/
theorem validateConnection_auth_step_witness :
    validateConnection wrongCredentialsEnv = .error authSpecificMessage ∧
    validateConnection serverErrorNoBodyEnv = .error (authCheckFallback 500) ∧
    authSpecificMessage ≠ authCheckFallback 401 := by
  refine ⟨?_, ?_, ?_⟩
  · exact (validateConnection_auth_step wrongCredentialsEnv
      { ok := true, status := 200 } { ok := false, status := 401, body := .parsed none }
      rfl rfl rfl rfl).1 (Or.inl rfl)
  · exact (validateConnection_auth_step serverErrorNoBodyEnv
      { ok := true, status := 200 } { ok := false, status := 500, body := .parsed none }
      rfl rfl rfl rfl).2.2.2.1 (by decide) rfl
  · exact (validateConnection_auth_step wrongCredentialsEnv
      { ok := true, status := 200 } { ok := false, status := 401, body := .parsed none }
      rfl rfl rfl rfl).2.1 401

/-- C8 counterexample: the claim that any non-401/403 failure of the auth
step is reported carrying the status code is false — a 500 response whose
body provides `message = "Insufficient storage"` is reported with exactly
that message, which does not contain the status code and is not the
status-carrying fallback. -/
theorem validateConnection_message_without_status :
    validateConnection serverMessageEnv = .error "Insufficient storage" ∧
    jsIncludes "Insufficient storage" (toString (500 : Nat)) = false ∧
    "Insufficient storage" ≠ authCheckFallback 500 := by
  refine ⟨rfl, by decide, by decide⟩